import Mathlib

/-!
Verification development for the godesktopgui repository (src/cmd/main.go).

The program starts an embedded HTTP server, parses one HTML template out of a
compiled-in file system (package generate), serves the single page /thegui by
combining that template with a hard-coded data model, and serves the remaining
static assets under /files/ straight from the same store.

The data model (GuiData, TableRow, populateGuiData) and the handler and
start-up control flow (guiHandler, parseTemplate, main) are translated from
src/cmd/main.go.  The compiled-in file system, the Go template parser and the
Go template execution engine live outside src/; where a claim depends on them
they are modelled from the spec, and each such definition says so in its doc
comment.
-/

/-- TableRow from src/cmd/main.go: one row of the HTML table in the GUI. -/
structure TableRow where
  File : String
  Comment : String
  Ago : String
  Icon : String
deriving Repr, DecidableEq

/-- GuiData from src/cmd/main.go: the GUI state combined with the template to
render the page.  Go `int` fields are carried as `Int` (all values used are
tiny, far from any machine-width wrap). -/
structure GuiData where
  Title : String
  Unwatch : Int
  Star : Int
  Fork : Int
  Commits : Int
  Branch : Int
  Release : Int
  Contributor : Int
  RowsInTable : List TableRow
deriving Repr, DecidableEq

/-- populateGuiData from src/cmd/main.go, translated statement by statement:
a composite literal followed by five appends to RowsInTable.  The Go literal
names every field except `Branch`; in Go an omitted struct field takes the
zero value of its type, so `Branch` is 0 here exactly as it is there. -/
def populateGuiData : GuiData :=
  let guiData : GuiData :=
    { Title := "Golang Standalone GUI Example"
      Unwatch := 3
      Star := 0
      Fork := 2
      Commits := 31
      Branch := 0
      Release := 1
      Contributor := 1
      RowsInTable := [] }
  let guiData := { guiData with RowsInTable :=
    guiData.RowsInTable ++ [(⟨"do_this.go", "Initial commit", "1 month ago", "file"⟩ : TableRow)] }
  let guiData := { guiData with RowsInTable :=
    guiData.RowsInTable ++ [(⟨"do_that.go", "Initial commit", "1 month ago", "file"⟩ : TableRow)] }
  let guiData := { guiData with RowsInTable :=
    guiData.RowsInTable ++ [(⟨"index.go", "Initial commit", "1 month ago", "file"⟩ : TableRow)] }
  let guiData := { guiData with RowsInTable :=
    guiData.RowsInTable ++ [(⟨"resources", "Initial commit", "2 months ago", "folder-open"⟩ : TableRow)] }
  let guiData := { guiData with RowsInTable :=
    guiData.RowsInTable ++ [(⟨"docs", "Initial commit", "2 months ago", "folder-open"⟩ : TableRow)] }
  guiData

/-- A parsed template, as produced by template.New("gui").Parse in
parseTemplate.  The Go parser internals are outside src/, so the parsed form
keeps the name and the source text. -/
structure Template where
  name : String
  source : String
deriving Repr, DecidableEq

/-- Modelled from the spec: the compiled-in file system
(generate.CompiledFileSystem, package generate, absent from src/) is an
immutable mapping from logical path to byte content, populated once at build
time.  Content is carried as a String, which is how src/cmd/main.go consumes
it (string(contents)). -/
structure AssetStore where
  entries : List (String × String)
deriving Repr, DecidableEq

/-- First-match lookup of a path in an association list of store entries. -/
def lookupBytes (p : String) : List (String × String) → Option String
  | [] => none
  | e :: tl => if e.1 = p then some e.2 else lookupBytes p tl

/-- Lookup in the asset store: the bytes recorded for the path, if present. -/
def AssetStore.get (st : AssetStore) (p : String) : Option String :=
  lookupBytes p st.entries

/-- The template path hard-coded in parseTemplate (src/cmd/main.go). -/
def templatePath : String := "files/templates/maingui.html"

/-- parseTemplate from src/cmd/main.go: open the template file in the
compiled-in file system, read its contents, and parse them; each failure
(open, read, parse) is a log.Fatalf, modelled as Except.error.  In the model
the store yields complete contents or nothing, so the open and read failure
cases coincide; Go template parsing is abstracted as the `parse` argument. -/
def parseTemplate (fs : AssetStore) (parse : String → Except String Template) :
    Except String Template :=
  match fs.get templatePath with
  | none => Except.error ("Failed to open <" ++ templatePath ++ ">")
  | some contents =>
    match parse contents with
    | Except.error e => Except.error ("Failed to parse template: " ++ e)
    | Except.ok t => Except.ok t

/-- The server state that exists once main has finished start-up: the parsed
template held in the process-wide variable, the asset store behind the /files/
route, and the listener running. -/
structure ServerState where
  template : Template
  store : AssetStore
  listening : Bool
deriving Repr, DecidableEq

/-- The start-up sequence of main (src/cmd/main.go): parseTemplate runs first
and any of its failures aborts the process; only on success are the handlers
registered and the listener started. -/
def startUp (fs : AssetStore) (parse : String → Except String Template) :
    Except String ServerState :=
  match parseTemplate fs parse with
  | Except.error e => Except.error e
  | Except.ok t => Except.ok { template := t, store := fs, listening := true }

/-- An HTTP response: status code and body. -/
structure Response where
  status : Nat
  body : String
deriving Repr, DecidableEq

/-- The body Go's http.NotFound writes for an absent path. -/
def notFoundBody : String := "404 page not found\n"

/-- Modelled from the spec: the /files/ route hands requests to the standard
file server over the compiled-in store (http.FileServer, outside src/).  A
present path is served with status 200 and its stored bytes; an absent path is
answered with a not-found response.  The store is passed through untouched. -/
def fileServerHandler (st : AssetStore) (p : String) : Response × AssetStore :=
  match st.get p with
  | some contents => (⟨200, contents⟩, st)
  | none => (⟨404, notFoundBody⟩, st)

/-- Modelled from the spec: the markup fragment the template emits for one
table row, substituting the row's four fields. -/
def rowFragment (r : TableRow) : String :=
  "<tr><td><span class=\"octicon octicon-" ++ r.Icon ++ "\"></span>" ++ r.File
    ++ "</td><td>" ++ r.Comment ++ "</td><td>" ++ r.Ago ++ "</td></tr>"

/-- Modelled from the spec: rendering iterates the Rows sequence in order and
emits one fragment per row, with no limit and no reordering. -/
def renderRows (rows : List TableRow) : List String :=
  rows.map rowFragment

/-- Modelled from the spec: the template document maingui.html lives in the
compiled-in file system and is absent from src/.  Per the spec, rendering
substitutes the scalar fields of the view model directly and iterates the
Rows sequence to emit repeated fragments. -/
def renderGui (d : GuiData) : String :=
  "<title>" ++ d.Title ++ "</title><h1>" ++ d.Title ++ "</h1>"
    ++ "<span>" ++ toString d.Unwatch ++ " Unwatch</span>"
    ++ "<span>" ++ toString d.Star ++ " Star</span>"
    ++ "<span>" ++ toString d.Fork ++ " Fork</span>"
    ++ "<span>" ++ toString d.Commits ++ " commits</span>"
    ++ "<span>" ++ toString d.Branch ++ " branch</span>"
    ++ "<span>" ++ toString d.Release ++ " release</span>"
    ++ "<span>" ++ toString d.Contributor ++ " contributor</span>"
    ++ "<table>" ++ String.join (renderRows d.RowsInTable) ++ "</table>"

/-- The process-wide state a page request can see: the parsed template and the
asset store. -/
structure ProcState where
  template : Template
  store : AssetStore
deriving Repr, DecidableEq

/-- guiHandler from src/cmd/main.go: build the view model with
populateGuiData, execute the template against it writing the page to the
response; on error, http.Error writes the error text followed by a newline
with status 500.  Template execution by the Go engine is abstracted as the
`exec` argument; the handler returns the process state so the embedding can
say what the call leaves behind. -/
def guiHandler (exec : Template → GuiData → Except String String) (st : ProcState) :
    Response × ProcState :=
  match exec st.template populateGuiData with
  | Except.ok html => (⟨200, html⟩, st)
  | Except.error e => (⟨500, e ++ "\n"⟩, st)

/-- The successful execution path: the template engine renders the modelled
page from the view model and never fails on it. -/
def execModel (_ : Template) (d : GuiData) : Except String String :=
  Except.ok (renderGui d)

/-- Two successive page requests against the same process state: the first
response, the second response, and the state left behind. -/
def serveTwice (exec : Template → GuiData → Except String String) (st : ProcState) :
    Response × Response × ProcState :=
  let r1 := guiHandler exec st
  let r2 := guiHandler exec r1.2
  (r1.1, r2.1, r2.2)

/-- Boolean check that `pat` occurs as a contiguous run inside the list. -/
def hasInfix (pat : List Char) : List Char → Bool
  | [] => pat.isEmpty
  | c :: t => pat.isPrefixOf (c :: t) || hasInfix pat t

/-- Boolean substring check on strings, via their character lists. -/
def strContains (s pat : String) : Bool :=
  hasInfix pat.data s.data

/-- A concrete process state used to instantiate the handler theorems. -/
def sampleState : ProcState :=
  ⟨⟨"gui", "<html></html>"⟩, ⟨[]⟩⟩

/-- A concrete failing template execution, standing for an ExecuteTemplate
call that reports an error. -/
def failingExec : Template → GuiData → Except String String :=
  fun _ _ => Except.error "template: gui: executing failed"

/-- A concrete store with no entries at all. -/
def emptyStore : AssetStore := ⟨[]⟩

/-- A concrete parser that accepts any source text. -/
def parseAlways : String → Except String Template :=
  fun s => Except.ok ⟨"gui", s⟩

/-- Concrete store entries used to instantiate the store theorems. -/
def sampleEntries : List (String × String) :=
  [("files/templates/maingui.html", "<html></html>"),
   ("files/css/maingui.css", "body")]

/-- Helper: first-match lookup finds the recorded value of any entry when the
entry keys are free of duplicates. -/
theorem lookupBytes_mem (p b : String) :
    ∀ entries : List (String × String), (entries.map Prod.fst).Nodup →
      (p, b) ∈ entries → lookupBytes p entries = some b := by
  intro entries
  induction entries with
  | nil => intro _ hmem; cases hmem
  | cons hd tl ih =>
    intro hnodup hmem
    rw [List.map_cons, List.nodup_cons] at hnodup
    cases hmem with
    | head =>
      simp [lookupBytes]
    | tail _ hmem2 =>
      have hne : hd.1 ≠ p := by
        intro hEq
        have hp : p ∈ tl.map Prod.fst := by
          have := List.mem_map_of_mem Prod.fst hmem2
          simpa using this
        exact hnodup.1 (hEq ▸ hp)
      simp only [lookupBytes, if_neg hne]
      exact ih hnodup.2 hmem2

/-- C1: populateGuiData is a constant function of no inputs.  Every call
returns the one fixed GuiData value: the fixed title, the seven integer
counters (Branch at the Go zero value) and the five literal rows, with no
failure case in its type. -/
theorem populateGuiData_pure_fixed :
    populateGuiData =
      { Title := "Golang Standalone GUI Example"
        Unwatch := 3
        Star := 0
        Fork := 2
        Commits := 31
        Branch := 0
        Release := 1
        Contributor := 1
        RowsInTable :=
          [⟨"do_this.go", "Initial commit", "1 month ago", "file"⟩,
           ⟨"do_that.go", "Initial commit", "1 month ago", "file"⟩,
           ⟨"index.go", "Initial commit", "1 month ago", "file"⟩,
           ⟨"resources", "Initial commit", "2 months ago", "folder-open"⟩,
           ⟨"docs", "Initial commit", "2 months ago", "folder-open"⟩] } := by
  rfl

/-- C2: rendering emits exactly one fragment per row of the Rows sequence, in
sequence order with no limit; on the fixed view model that is exactly 5
fragments whose rows are, in order, do_this.go, do_that.go, index.go,
resources, docs. -/
theorem renderRows_one_fragment_per_row_in_order :
    (∀ rows : List TableRow,
        renderRows rows = rows.map rowFragment ∧
        (renderRows rows).length = rows.length) ∧
    (renderRows populateGuiData.RowsInTable).length = 5 ∧
    populateGuiData.RowsInTable.map TableRow.File =
      ["do_this.go", "do_that.go", "index.go", "resources", "docs"] := by
  refine ⟨fun rows => ⟨rfl, by simp [renderRows]⟩, rfl, rfl⟩

/-- C9: the Go composite literal in populateGuiData never assigns the Branch
counter, so every view model it returns has Branch equal to the zero value 0,
while the other six counters carry the assigned literals. -/
theorem populateGuiData_branch_zero :
    populateGuiData.Branch = 0 ∧
    populateGuiData.Unwatch = 3 ∧
    populateGuiData.Star = 0 ∧
    populateGuiData.Fork = 2 ∧
    populateGuiData.Commits = 31 ∧
    populateGuiData.Release = 1 ∧
    populateGuiData.Contributor = 1 := by
  refine ⟨rfl, rfl, rfl, rfl, rfl, rfl, rfl⟩

/-- C4: rendering is deterministic.  Invoking the page handler twice against
the same process state (the same parsed template) with the same view model
yields byte-identical responses, whatever the template engine does. -/
theorem render_deterministic
    (exec : Template → GuiData → Except String String) (st : ProcState) :
    (serveTwice exec st).1 = (serveTwice exec st).2.1 := by
  unfold serveTwice guiHandler
  cases h : exec st.template populateGuiData <;> simp [h]

/-- C3: serving GET /thegui with the working template engine yields status 200
and a body that carries the literal title "Golang Standalone GUI Example" and
the commits counter text "31"; the view model handed to the renderer has that
title and Commits = 31. -/
theorem thegui_ok_response (st : ProcState) :
    (guiHandler execModel st).1.status = 200 ∧
    strContains (guiHandler execModel st).1.body "Golang Standalone GUI Example" = true ∧
    strContains (guiHandler execModel st).1.body "31" = true ∧
    populateGuiData.Title = "Golang Standalone GUI Example" ∧
    populateGuiData.Commits = 31 := by
  have hb : (guiHandler execModel st).1.body = renderGui populateGuiData := rfl
  refine ⟨rfl, ?_, ?_, rfl, rfl⟩ <;> rw [hb] <;> decide

/-- C5: a template execution failure on a page request yields a 500 response
for that request and leaves the process state — the parsed template and the
asset store — unchanged; the handler returns normally, so the process keeps
serving. -/
theorem render_error_500_state_unchanged
    (exec : Template → GuiData → Except String String) (st : ProcState) (e : String)
    (h : exec st.template populateGuiData = Except.error e) :
    (guiHandler exec st).1.status = 500 ∧ (guiHandler exec st).2 = st := by
  unfold guiHandler
  rw [h]
  exact ⟨rfl, rfl⟩

theorem render_error_500_state_unchanged_witness :
    failingExec sampleState.template populateGuiData =
      Except.error "template: gui: executing failed" ∧
    (guiHandler failingExec sampleState).1.status = 500 ∧
    (guiHandler failingExec sampleState).2 = sampleState :=
  ⟨rfl, render_error_500_state_unchanged failingExec sampleState
    "template: gui: executing failed" rfl⟩

/-- C10: on a template execution failure the handler writes the error message
text verbatim into the response body (http.Error appends one newline after
it), exposing the internal diagnostic to the client. -/
theorem render_error_message_in_body
    (exec : Template → GuiData → Except String String) (st : ProcState) (e : String)
    (h : exec st.template populateGuiData = Except.error e) :
    (guiHandler exec st).1.body = e ++ "\n" := by
  unfold guiHandler
  rw [h]

theorem render_error_message_in_body_witness :
    failingExec sampleState.template populateGuiData =
      Except.error "template: gui: executing failed" ∧
    (guiHandler failingExec sampleState).1.body =
      "template: gui: executing failed" ++ "\n" :=
  ⟨rfl, render_error_message_in_body failingExec sampleState
    "template: gui: executing failed" rfl⟩

/-- C6: template loading fails exactly when the template document is absent
from the store or its contents fail to parse (an unreadable file coincides
with absence in the store model), and any such failure aborts start-up before
the listener exists: startUp produces no ServerState at all. -/
theorem parseTemplate_fatal_before_listener
    (fs : AssetStore) (parse : String → Except String Template) :
    ((∃ e, parseTemplate fs parse = Except.error e) ↔
      fs.get templatePath = none ∨
        ∃ c e, fs.get templatePath = some c ∧ parse c = Except.error e) ∧
    (∀ e, parseTemplate fs parse = Except.error e →
      startUp fs parse = Except.error e) := by
  constructor
  · constructor
    · rintro ⟨e, he⟩
      unfold parseTemplate at he
      cases hg : fs.get templatePath with
      | none => exact Or.inl rfl
      | some c =>
        rw [hg] at he
        dsimp only at he
        cases hp : parse c with
        | error e2 => exact Or.inr ⟨c, e2, rfl, hp⟩
        | ok t => rw [hp] at he; simp at he
    · rintro (hnone | ⟨c, e, hc, hp⟩)
      · exact ⟨"Failed to open <" ++ templatePath ++ ">",
          by unfold parseTemplate; rw [hnone]⟩
      · exact ⟨"Failed to parse template: " ++ e,
          by unfold parseTemplate; rw [hc]; dsimp only; rw [hp]⟩
  · intro e he
    unfold startUp
    rw [he]

theorem parseTemplate_fatal_before_listener_witness :
    startUp emptyStore parseAlways =
      Except.error ("Failed to open <" ++ templatePath ++ ">") :=
  (parseTemplate_fatal_before_listener emptyStore parseAlways).2
    ("Failed to open <" ++ templatePath ++ ">") rfl

/-- C7: for every entry inserted into the store (with duplicate-free keys, as
distinct file paths are), get returns exactly the inserted bytes; and serving
never mutates the store — the file-server handler passes it through
unchanged. -/
theorem assetStore_roundtrip_immutable
    (entries : List (String × String)) (p b : String)
    (hnodup : (entries.map Prod.fst).Nodup) (hmem : (p, b) ∈ entries) :
    (AssetStore.mk entries).get p = some b ∧
    ∀ (st : AssetStore) (q : String), (fileServerHandler st q).2 = st := by
  refine ⟨lookupBytes_mem p b entries hnodup hmem, ?_⟩
  intro st q
  unfold fileServerHandler
  cases st.get q <;> rfl

theorem assetStore_roundtrip_immutable_witness :
    (sampleEntries.map Prod.fst).Nodup ∧
    ("files/css/maingui.css", "body") ∈ sampleEntries ∧
    (AssetStore.mk sampleEntries).get "files/css/maingui.css" = some "body" :=
  ⟨by decide, by decide,
    (assetStore_roundtrip_immutable sampleEntries "files/css/maingui.css" "body"
      (by decide) (by decide)).1⟩

/-- C8: a request on the static-asset route for a path absent from the store
is answered with the not-found response and nothing else: the store comes back
unchanged. -/
theorem static_route_not_found (st : AssetStore) (p : String)
    (h : st.get p = none) :
    fileServerHandler st p = (⟨404, notFoundBody⟩, st) := by
  unfold fileServerHandler
  rw [h]

theorem static_route_not_found_witness :
    (AssetStore.mk sampleEntries).get "files/js/missing.js" = none ∧
    fileServerHandler (AssetStore.mk sampleEntries) "files/js/missing.js" =
      (⟨404, notFoundBody⟩, AssetStore.mk sampleEntries) :=
  ⟨by decide, static_route_not_found (AssetStore.mk sampleEntries)
    "files/js/missing.js" (by decide)⟩
